import Mathlib

/-!
Verification of the WrenAI chat-completion adapter, the semantics-description
normalizer and the contextual-recall metric, as a shallow embedding of
`src/wren-ai-service/src/providers/llm/openai.py`,
`src/wren-ai-service/src/pipelines/generation/semantics_description.py` and
`src/wren-ai-service/eval/metrics/context_recall.py`.
-/

namespace Wren

/-- A Python `dict` with string keys, embedded as an association list whose
keys are unique (Python dictionaries never hold a key twice; theorems that
need this carry a `Nodup` hypothesis on the keys). -/
abbrev PyDict (α : Type) : Type := List (String × α)

/-- `d[k]` lookup: first entry whose key matches. -/
def dictGet {α : Type} : PyDict α → String → Option α
  | [], _ => Option.none
  | (k, v) :: rest, key => if k = key then Option.some v else dictGet rest key

/-- `k in d`. -/
def dictContains {α : Type} (d : PyDict α) (k : String) : Bool :=
  (dictGet d k).isSome

/-- `d[k] = v`: overwrite the entry if the key is present, append otherwise. -/
def dictInsert {α : Type} (d : PyDict α) (k : String) (v : α) : PyDict α :=
  if dictContains d k then
    d.map (fun kv => if kv.1 = k then (k, v) else kv)
  else
    d ++ [(k, v)]

/-- Python's `{**a, **b}`: start from `a` and write every entry of `b` over it,
so on a shared key the value of `b` wins. -/
def dictMerge {α : Type} (a b : PyDict α) : PyDict α :=
  b.foldl (fun acc kv => dictInsert acc kv.1 kv.2) a

/-- The keys of a dict, in entry order. -/
def dictKeys {α : Type} (d : PyDict α) : List String :=
  d.map Prod.fst

/-- A Python/JSON value, as held in generation kwargs and parsed model
output (`orjson.loads` results). -/
inductive PyVal : Type where
  | int (i : Int)
  | str (s : String)
  | bool (b : Bool)
  | null
  | arr (xs : List PyVal)
  | dict (fields : List (String × PyVal))

/-- A Vertex AI credential (`google.auth` credential object): a validity flag
and the bearer token (`openai.py` line 66-70, 75-82). -/
structure Credential : Type where
  valid : Bool
  token : String

/-- A haystack `ChatMessage`: role plus text content. -/
structure ChatMessage : Type where
  role : String
  content : String

/-- `ChatMessage.from_user(prompt)` (haystack): a message with the "user" role. -/
def ChatMessage.from_user (text : String) : ChatMessage :=
  { role := "user", content := text }

/-- `ChatMessage.from_assistant(text)` (haystack): a message with the
"assistant" role. -/
def ChatMessage.from_assistant (text : String) : ChatMessage :=
  { role := "assistant", content := text }

/-- The state of an `AsyncGenerator` instance (`openai.py` lines 33-70):
the configured model, whether a streaming callback was passed, the optional
system prompt, the default generation kwargs, the API key currently stored on
the wrapped `AsyncOpenAI` client, and the Vertex AI credential that
`__init__` acquires for `google/` models (`None` otherwise). -/
structure AsyncGenerator : Type where
  model : String
  streaming_callback : Bool
  system_prompt : Option String
  generation_kwargs : PyDict PyVal
  client_api_key : String
  vertexai_creds : Option Credential

/-- Python's `str.startswith`, embedded structurally over the character
lists. -/
def strStartsWith (s pre : String) : Bool :=
  pre.data.isPrefixOf s.data

/-- `AsyncGenerator.__init__` (lines 35-70): store the configuration, build the
client with the API key, and acquire ambient Vertex AI credentials exactly when
the model name starts with "google/". `ambient` stands for the credential that
`google.auth.default` would return. -/
def initGenerator (api_key model : String) (streaming_callback : Bool)
    (system_prompt : Option String) (generation_kwargs : PyDict PyVal)
    (ambient : Option Credential) : AsyncGenerator :=
  { model := model
    streaming_callback := streaming_callback
    system_prompt := system_prompt
    generation_kwargs := generation_kwargs
    client_api_key := api_key
    vertexai_creds := if strStartsWith model "google/" then ambient else Option.none }

/-- The attribute names an `AsyncGenerator` object resolves through normal
Python lookup: instance attributes set by `OpenAIGenerator.__init__` /
`AsyncGenerator.__init__` plus the methods defined on the class. Python calls
`__getattr__` only for names *not* in this list (normal lookup must fail
first). -/
def normallyResolved : List String :=
  ["client", "api_key", "model", "streaming_callback", "api_base_url",
   "organization", "system_prompt", "generation_kwargs", "timeout",
   "_vertexai_creds", "run", "_build_chunk", "_connect_chunks",
   "_build_message", "_check_finish_reason"]

/-- The body of `AsyncGenerator.__getattr__` (lines 72-83): when a Vertex AI
credential is present and invalid, refresh it; if it is still invalid raise
`RuntimeError("Unable to refresh auth")`, otherwise propagate the new token
into the client. Returns the (possibly updated) state and whether a refresh
happened. `refresh` stands for `google.auth` credential refreshing against the
ambient source. -/
def dunderGetattr (g : AsyncGenerator) (refresh : Credential → Credential) :
    Except String (AsyncGenerator × Bool) :=
  match g.vertexai_creds with
  | Option.some c =>
    if c.valid then Except.ok (g, false)
    else
      let c' := refresh c
      if c'.valid then
        Except.ok ({ g with vertexai_creds := Option.some c',
                            client_api_key := c'.token }, true)
      else Except.error "Unable to refresh auth"
  | Option.none => Except.ok (g, false)

/-- Python attribute access on an `AsyncGenerator`: a name found by normal
lookup is returned as-is and `__getattr__` never runs; only a missing name
falls back to `__getattr__`. -/
def pyAttrAccess (g : AsyncGenerator) (refresh : Credential → Credential)
    (name : String) : Except String (AsyncGenerator × Bool) :=
  if normallyResolved.contains name then Except.ok (g, false)
  else dunderGetattr g refresh

/-- Build the message list (`run`, lines 91-96): prepend the system prompt as
an assistant-role message when configured, else just the user message. -/
def buildMessages (g : AsyncGenerator) (prompt : String) : List ChatMessage :=
  match g.system_prompt with
  | Option.some sp => [ChatMessage.from_assistant sp, ChatMessage.from_user prompt]
  | Option.none => [ChatMessage.from_user prompt]

/-- Line 99: `{**self.generation_kwargs, **(generation_kwargs or {})}`. -/
def effectiveKwargs (g : AsyncGenerator) (gk : Option (PyDict PyVal)) :
    PyDict PyVal :=
  dictMerge g.generation_kwargs (gk.getD [])

/-- Line 115: `generation_kwargs.pop("n", 1)`, read as the integer it holds
(the source always stores an int under "n"). -/
def popN (kwargs : PyDict PyVal) : Int :=
  match dictGet kwargs "n" with
  | Option.some (PyVal.int i) => i
  | _ => 1

/-- One `ChatCompletionChunk` of a streamed response: the delta contents of
its choices (in order) and its reported metadata. -/
structure StreamChunk : Type where
  choices : List String
  meta : PyDict PyVal

/-- One choice of a one-shot `ChatCompletion`: its message content and the
metadata haystack attaches when building the completion. -/
structure Choice : Type where
  content : String
  meta : PyDict PyVal

/-- Modelled from the spec: haystack's `OpenAIGenerator._build_chunk` is not in
this repository; per the spec a delivered chunk "carries content", taken from
its first choice's delta (empty when absent). -/
def buildChunkContent (c : StreamChunk) : String :=
  c.choices.headD ""

/-- Modelled from the spec: haystack's `OpenAIGenerator._connect_chunks` is not
in this repository; per the spec the stream is assembled "in arrival order"
into exactly one completion whose text is the ordered concatenation of the
chunks' contents. -/
def connectChunks (contents : List String) : String :=
  String.join contents

/-- Modelled from the spec: the assembled streamed completion's metadata
(haystack takes it from the final chunk). -/
def streamMeta (chunks : List StreamChunk) : PyDict PyVal :=
  ((chunks.getLast?).map StreamChunk.meta).getD []

/-- What the backend does for one dispatched request: raise a rate-limit
error, raise some other API/transport error, deliver a stream of chunks, or
deliver a one-shot completion with some choices. -/
inductive BackendBehavior : Type where
  | rateLimit
  | apiError
  | streamResp (chunks : List StreamChunk)
  | oneShot (choices : List Choice)

/-- The request `run` hands to `client.chat.completions.create`
(lines 106-111): model, message list, the stream flag, the merged generation
kwargs, and the API key the client holds when the call is made. -/
structure Request : Type where
  model : String
  messages : List ChatMessage
  stream : Bool
  kwargs : PyDict PyVal
  api_key : String

/-- The errors one `run` attempt can surface. -/
inductive RunError : Type where
  | rateLimit
  | apiError
  | configError (msg : String)
  | authError (msg : String)

/-- The value `run` returns (lines 139-142): parallel reply texts and
metadata. -/
structure RunOutput : Type where
  replies : List String
  meta : List (PyDict PyVal)

/-- Everything observable about one attempt of `run`'s body: the request
dispatched to the backend (if any), whether the Vertex credential got
refreshed on the way, the chunk contents passed to the streaming callback in
invocation order, and the outcome. -/
structure AttemptResult : Type where
  request : Option Request
  refreshed : Bool
  callbackContents : List String
  result : Except RunError RunOutput

/-- One attempt of `AsyncGenerator.run`'s body (lines 87-142), i.e. what the
`backoff` decorator retries. Line 106 reads `self.client`, an instance
attribute, so Python resolves it normally and `__getattr__` (the credential
refresh hook) is not consulted; the request is then dispatched with the
client's current API key. A `Stream` result first checks `n` (popped from the
merged kwargs, default 1) and raises `ValueError` when it exceeds 1 — after
the request was already issued; otherwise each chunk with choices is (when a
callback is configured) built, accumulated and passed to the callback, and the
accumulated contents are assembled into one completion. A `ChatCompletion`
result yields one completion per choice in backend order.
`_check_finish_reason` (line 137) only logs, so it has no observable effect
here. -/
def singleAttempt (g : AsyncGenerator) (refresh : Credential → Credential)
    (prompt : String) (gk : Option (PyDict PyVal)) (b : BackendBehavior) :
    AttemptResult :=
  let messages := buildMessages g prompt
  let kwargs := effectiveKwargs g gk
  match pyAttrAccess g refresh "client" with
  | Except.error e =>
    { request := Option.none, refreshed := false, callbackContents := [],
      result := Except.error (RunError.authError e) }
  | Except.ok (g', refreshed) =>
    let req : Request :=
      { model := g.model, messages := messages,
        stream := g.streaming_callback, kwargs := kwargs,
        api_key := g'.client_api_key }
    match b with
    | BackendBehavior.rateLimit =>
      { request := Option.some req, refreshed := refreshed,
        callbackContents := [], result := Except.error RunError.rateLimit }
    | BackendBehavior.apiError =>
      { request := Option.some req, refreshed := refreshed,
        callbackContents := [], result := Except.error RunError.apiError }
    | BackendBehavior.streamResp chunks =>
      if 1 < popN kwargs then
        { request := Option.some req, refreshed := refreshed,
          callbackContents := [],
          result := Except.error (RunError.configError
            "Cannot stream multiple responses, please set n=1.") }
      else
        let delivered :=
          if g.streaming_callback then
            chunks.filter (fun c => !c.choices.isEmpty)
          else []
        let contents := delivered.map buildChunkContent
        { request := Option.some req, refreshed := refreshed,
          callbackContents := contents,
          result := Except.ok
            { replies := [connectChunks contents],
              meta := [streamMeta chunks] } }
    | BackendBehavior.oneShot choices =>
      { request := Option.some req, refreshed := refreshed,
        callbackContents := [],
        result := Except.ok
          { replies := choices.map Choice.content,
            meta := choices.map Choice.meta } }

/-- `backoff.on_exception(backoff.expo, openai.RateLimitError, max_time=60,
max_tries=3)`: at most 3 attempts in total. -/
def backoffMaxTries : Nat := 3

/-- The 60-time-unit overall ceiling of the backoff policy. -/
def backoffMaxTime : Nat := 60

/-- The retry loop the `backoff` decorator wraps around `run`'s body: attempt
`i` consults the backend's behavior for that attempt; a `RateLimitError` is
retried after an exponential wait (2^i time units) unless the tries are
exhausted or the elapsed time has reached the ceiling, any other outcome is
final. Returns the attempts in order together with the final outcome. -/
def retryAux (g : AsyncGenerator) (refresh : Credential → Credential)
    (prompt : String) (gk : Option (PyDict PyVal))
    (behaviors : Nat → BackendBehavior) (i elapsed : Nat) :
    Nat → List AttemptResult × Except RunError RunOutput
  | 0 => ([], Except.error RunError.rateLimit)
  | triesLeft + 1 =>
    let a := singleAttempt g refresh prompt gk (behaviors i)
    match a.result with
    | Except.error RunError.rateLimit =>
      if triesLeft = 0 || backoffMaxTime ≤ elapsed then
        ([a], Except.error RunError.rateLimit)
      else
        let next := retryAux g refresh prompt gk behaviors (i + 1)
          (elapsed + 2 ^ i) triesLeft
        (a :: next.1, next.2)
    | r => ([a], r)

/-- `AsyncGenerator.run(prompt, generation_kwargs)` under the `backoff`
decorator, against a backend whose behavior on the `i`-th dispatched attempt
is `behaviors i`. -/
def AsyncGenerator.run (g : AsyncGenerator) (refresh : Credential → Credential)
    (prompt : String) (gk : Option (PyDict PyVal))
    (behaviors : Nat → BackendBehavior) :
    List AttemptResult × Except RunError RunOutput :=
  retryAux g refresh prompt gk behaviors 0 0 backoffMaxTries

/-- The Python exceptions the embedded fragments can raise. -/
inductive PyError : Type where
  | keyError (k : String)
  | typeError
  | indexError
  | zeroDivision
deriving DecidableEq

/-- `text.replace("\n", " ")`: the pattern is a single character, so this is a
character map. -/
def pyReplaceNewline (s : String) : String :=
  String.mk (s.data.map (fun c => if c = '\n' then ' ' else c))

/-- Helper for Python's `str.split()`: cut the character list into maximal
non-whitespace runs, carrying the current run reversed. -/
def pySplitAux : List Char → List Char → List String
  | [], acc => if acc.isEmpty then [] else [String.mk acc.reverse]
  | c :: rest, acc =>
    if c.isWhitespace then
      (if acc.isEmpty then [] else [String.mk acc.reverse]) ++ pySplitAux rest []
    else pySplitAux rest (c :: acc)

/-- Python's `str.split()` with no argument: split on whitespace runs,
discarding empty pieces. -/
def pySplit (s : String) : List String :=
  pySplitAux s.data []

/-- `" ".join(text.split())` (semantics_description.py line 60). -/
def collapseWs (s : String) : String :=
  String.intercalate " " (pySplit s)

/-- Python's `str.strip()`: drop whitespace from both ends. -/
def pyStrip (s : String) : String :=
  String.mk (((s.data.dropWhile Char.isWhitespace).reverse.dropWhile
    Char.isWhitespace).reverse)

/-- The text transformation `wrapper` applies before parsing
(semantics_description.py lines 59-63): replace newlines with spaces, collapse
whitespace, then strip. -/
def wrapperTransform (text : String) : String :=
  pyStrip (collapseWs (pyReplaceNewline text))

/-- `wrapper` (semantics_description.py lines 58-67): parse the normalized
text; a `JSONDecodeError` is caught and an empty dict returned. `parse` stands
for `orjson.loads`, returning `none` exactly on unparsable input. -/
def wrapper (parse : String → Option PyVal) (text : String) : PyVal :=
  match parse (wrapperTransform text) with
  | Option.some v => v
  | Option.none => PyVal.dict []

/-- Python subscripting `v[k]` with a string key: only a dict succeeds, a
missing key raises `KeyError`, any other value raises `TypeError`. -/
def getItem : PyVal → String → Except PyError PyVal
  | PyVal.dict d, k =>
    match dictGet d k with
    | Option.some v => Except.ok v
    | Option.none => Except.error (PyError.keyError k)
  | _, _ => Except.error PyError.typeError

/-- `normalize` (semantics_description.py lines 57-76): take the first reply
of the generator output, run it through `wrapper`, subscript the result with
`"models"`, and build the mapping `{model["name"]: model for model in ...}`
(returned here as the ordered key/value pairs the comprehension produces; the
Python dict keeps the last pair for a repeated key). -/
def normalize (parse : String → Option PyVal) (generate : RunOutput) :
    Except PyError (List (PyVal × PyVal)) := do
  let reply ← match generate.replies.head? with
    | Option.some r => Except.ok r
    | Option.none => Except.error PyError.indexError
  let normalized := wrapper parse reply
  let models ← getItem normalized "models"
  match models with
  | PyVal.arr ms =>
    ms.mapM (fun m => do
      let name ← getItem m "name"
      Except.ok (name, m))
  | _ => Except.error PyError.typeError

/-- The state `ContextualRecallMetric.__init__` sets (context_recall.py lines
10-13): `threshold = 0`, `score = 0`. -/
structure ContextualRecallMetric : Type where
  threshold : Rat
  score : Rat

/-- `ContextualRecallMetric(engine_config)`. -/
def initMetric : ContextualRecallMetric :=
  { threshold := 0, score := 0 }

/-- The fields `a_measure` leaves on the metric: the computed score and the
`success` flag `is_successful` later returns. -/
structure MeasureOutcome : Type where
  score : Rat
  success : Bool
deriving DecidableEq

/-- `ContextualRecallMetric.a_measure` (context_recall.py lines 18-27), with
`expected` standing for the context units `get_contexts_from_sql` yields for
the test case's expected SQL: `score = len(set(retrieval) & set(expected)) /
len(expected)` — a `ZeroDivisionError` when `expected` is empty — and
`success = score >= threshold`. -/
def ContextualRecallMetric.a_measure (m : ContextualRecallMetric)
    (retrieval expected : List String) : Except PyError MeasureOutcome :=
  if expected.length = 0 then Except.error PyError.zeroDivision
  else
    let score : Rat :=
      ((retrieval.toFinset ∩ expected.toFinset).card : Rat) /
        (expected.length : Rat)
    Except.ok { score := score, success := decide (m.threshold ≤ score) }

/-- The state `OpenAILLMProvider.__init__` stores (openai.py lines 147-166). -/
structure OpenAILLMProvider : Type where
  api_key : String
  api_base : String
  generation_model : String
  model_kwargs : PyDict PyVal

/-- `OpenAILLMProvider.get_generator` (lines 174-197): builds an
`AsyncGenerator` whose generation kwargs are
`{**generation_kwargs, **self._model_kwargs}` — the stored model kwargs are
written over the caller's dict. Unpacking `None` in a dict display raises
`TypeError`, so the default `generation_kwargs=None` is rejected. -/
def OpenAILLMProvider.get_generator (p : OpenAILLMProvider)
    (system_prompt : Option String)
    (generation_kwargs : Option (PyDict PyVal))
    (ambient : Option Credential) : Except PyError AsyncGenerator :=
  match generation_kwargs with
  | Option.none => Except.error PyError.typeError
  | Option.some gk =>
    Except.ok (initGenerator p.api_key p.generation_model false system_prompt
      (dictMerge gk p.model_kwargs) ambient)

/-! Concrete fixtures used by witnesses and counterexamples. -/

/-- A generator with a streaming callback configured and default `n = 2`. -/
def streamN2Gen : AsyncGenerator :=
  { model := "gpt-4o-mini", streaming_callback := true,
    system_prompt := Option.none,
    generation_kwargs := [("temperature", PyVal.int 0), ("n", PyVal.int 2)],
    client_api_key := "key", vertexai_creds := Option.none }

/-- A generator with a streaming callback configured and default `n = 1`. -/
def streamN1Gen : AsyncGenerator :=
  { model := "gpt-4o-mini", streaming_callback := true,
    system_prompt := Option.none,
    generation_kwargs := [("temperature", PyVal.int 0), ("n", PyVal.int 1)],
    client_api_key := "key", vertexai_creds := Option.none }

/-- A non-streaming generator with the library's default kwargs. -/
def plainGen : AsyncGenerator :=
  { model := "gpt-4o-mini", streaming_callback := false,
    system_prompt := Option.some "You are an assistant.",
    generation_kwargs := [("temperature", PyVal.int 0), ("n", PyVal.int 1),
      ("max_tokens", PyVal.int 4096)],
    client_api_key := "key", vertexai_creds := Option.none }

/-- A Vertex AI generator whose credential is currently invalid. -/
def vertexStaleGen : AsyncGenerator :=
  initGenerator "initial-key" "google/gemini-1.5-pro" false Option.none []
    (Option.some { valid := false, token := "stale-token" })

/-- A refresh that succeeds and returns a valid credential. -/
def refreshSucceeds : Credential → Credential :=
  fun _ => { valid := true, token := "fresh-token" }

/-- A backend that rate-limits the first three attempts and would succeed on
the fourth. -/
def rateRateRateOk : Nat → BackendBehavior := fun i =>
  if i < 3 then BackendBehavior.rateLimit
  else BackendBehavior.oneShot [{ content := "ok", meta := [] }]

/-- A backend that rate-limits the first two attempts and succeeds on the
third. -/
def rateRateOk : Nat → BackendBehavior := fun i =>
  if i < 2 then BackendBehavior.rateLimit
  else BackendBehavior.oneShot [{ content := "ok", meta := [] }]

/-- A backend that fails with a non-rate-limit error at once. -/
def alwaysApiError : Nat → BackendBehavior := fun _ => BackendBehavior.apiError

/-- A provider fixture. -/
def providerFixture : OpenAILLMProvider :=
  { api_key := "key", api_base := "https://api.openai.com/v1",
    generation_model := "gpt-4o-mini",
    model_kwargs := [("n", PyVal.int 1), ("max_tokens", PyVal.int 4096)] }

/-! Association-list dictionary lemmas. -/

theorem dictGet_eq_none_of_not_mem {α : Type} {d : PyDict α} {k : String}
    (h : k ∉ dictKeys d) : dictGet d k = Option.none := by
  induction d with
  | nil => rfl
  | cons kv rest ih =>
    obtain ⟨k0, v0⟩ := kv
    simp only [dictKeys, List.map_cons, List.mem_cons, not_or] at h
    simp only [dictGet]
    rw [if_neg (fun hk => h.1 hk.symm)]
    exact ih (by simpa [dictKeys] using h.2)

theorem dictGet_map_overwrite {α : Type} {d : PyDict α} {k : String} (v : α)
    (h : dictContains d k = true) :
    dictGet (d.map (fun kv => if kv.1 = k then (k, v) else kv)) k = Option.some v := by
  induction d with
  | nil => simp [dictContains, dictGet] at h
  | cons kv rest ih =>
    obtain ⟨k0, v0⟩ := kv
    by_cases hk : k0 = k
    · have hhead : (if (k0, v0).1 = k then (k, v) else (k0, v0)) = (k, v) := if_pos hk
      simp only [List.map_cons]
      rw [hhead]
      simp [dictGet]
    · have hhead : (if (k0, v0).1 = k then (k, v) else (k0, v0)) = (k0, v0) := if_neg hk
      simp only [List.map_cons]
      rw [hhead]
      simp only [dictGet]
      rw [if_neg hk]
      apply ih
      simp only [dictContains, dictGet] at h
      rwa [if_neg hk] at h

theorem dictGet_map_ne {α : Type} (d : PyDict α) (k k' : String) (v : α)
    (h : k' ≠ k) :
    dictGet (d.map (fun kv => if kv.1 = k then (k, v) else kv)) k' = dictGet d k' := by
  induction d with
  | nil => rfl
  | cons kv rest ih =>
    obtain ⟨k0, v0⟩ := kv
    by_cases hk : k0 = k
    · have hhead : (if (k0, v0).1 = k then (k, v) else (k0, v0)) = (k, v) := if_pos hk
      simp only [List.map_cons]
      rw [hhead]
      simp only [dictGet]
      rw [if_neg (fun he : k = k' => h he.symm),
        if_neg (fun he : k0 = k' => h (he.symm.trans hk))]
      exact ih
    · have hhead : (if (k0, v0).1 = k then (k, v) else (k0, v0)) = (k0, v0) := if_neg hk
      simp only [List.map_cons]
      rw [hhead]
      simp only [dictGet]
      by_cases he : k0 = k'
      · rw [if_pos he, if_pos he]
      · rw [if_neg he, if_neg he]
        exact ih

theorem dictGet_append_single_self {α : Type} (d : PyDict α) (k : String) (v : α) :
    dictGet d k = Option.none → dictGet (d ++ [(k, v)]) k = Option.some v := by
  induction d with
  | nil => intro _; simp [dictGet]
  | cons kv rest ih =>
    obtain ⟨k0, v0⟩ := kv
    intro h
    by_cases hk : k0 = k
    · simp only [dictGet] at h
      rw [if_pos hk] at h
      exact absurd h (by simp)
    · simp only [List.cons_append, dictGet] at h ⊢
      rw [if_neg hk] at h ⊢
      exact ih h

theorem dictGet_append_single_ne {α : Type} (d : PyDict α) (k k' : String) (v : α)
    (h : k' ≠ k) : dictGet (d ++ [(k, v)]) k' = dictGet d k' := by
  induction d with
  | nil =>
    simp only [List.nil_append, dictGet]
    rw [if_neg (fun he : k = k' => h he.symm)]
  | cons kv rest ih =>
    obtain ⟨k0, v0⟩ := kv
    simp only [List.cons_append, dictGet]
    by_cases he : k0 = k'
    · rw [if_pos he, if_pos he]
    · rw [if_neg he, if_neg he]
      exact ih

theorem dictGet_insert_self {α : Type} (d : PyDict α) (k : String) (v : α) :
    dictGet (dictInsert d k v) k = Option.some v := by
  unfold dictInsert
  by_cases h : dictContains d k
  · rw [if_pos h]; exact dictGet_map_overwrite v h
  · rw [if_neg h]
    apply dictGet_append_single_self
    exact Option.not_isSome_iff_eq_none.mp (by simpa [dictContains] using h)

theorem dictGet_insert_ne {α : Type} (d : PyDict α) (k k' : String) (v : α)
    (h : k' ≠ k) : dictGet (dictInsert d k v) k' = dictGet d k' := by
  unfold dictInsert
  by_cases hc : dictContains d k
  · rw [if_pos hc]; exact dictGet_map_ne d k k' v h
  · rw [if_neg hc]; exact dictGet_append_single_ne d k k' v h

/-- Lookup through `{**a, **b}`: a key present in `b` gets `b`'s value, any
other key falls back to `a`. -/
theorem dictGet_merge {α : Type} (a b : PyDict α) (k : String)
    (hb : (dictKeys b).Nodup) :
    dictGet (dictMerge a b) k =
      match dictGet b k with
      | Option.some v => Option.some v
      | Option.none => dictGet a k := by
  induction b generalizing a with
  | nil => rfl
  | cons kv rest ih =>
    obtain ⟨k0, v0⟩ := kv
    simp only [dictKeys, List.map_cons, List.nodup_cons] at hb
    have hmerge : dictMerge a ((k0, v0) :: rest) = dictMerge (dictInsert a k0 v0) rest := rfl
    rw [hmerge, ih (dictInsert a k0 v0) (by simpa [dictKeys] using hb.2)]
    by_cases hk : k0 = k
    · -- head key is the looked-up key: `rest` cannot hold it again
      subst hk
      have hrest : dictGet rest k0 = Option.none :=
        dictGet_eq_none_of_not_mem (by simpa [dictKeys] using hb.1)
      rw [hrest]
      simp only [dictGet, if_pos rfl]
      exact dictGet_insert_self a k0 v0
    · simp only [dictGet, if_neg hk]
      cases hr : dictGet rest k with
      | none => exact dictGet_insert_ne a k0 k v0 (fun he => hk he.symm)
      | some v => rfl

/-! Claim theorems. -/

/-- C1 (counterexample): with a streaming callback configured and `n = 2` in
the effective options, `run`'s body does raise the configuration error, but
the request HAS been dispatched to the backend — refuting the claim that no
network request is issued for that invocation. -/
theorem C1_request_dispatched_before_check :
    (singleAttempt streamN2Gen refreshSucceeds "p" Option.none
      (BackendBehavior.streamResp [⟨["hi"], []⟩])).result =
      Except.error (RunError.configError
        "Cannot stream multiple responses, please set n=1.") ∧
    (singleAttempt streamN2Gen refreshSucceeds "p" Option.none
      (BackendBehavior.streamResp [⟨["hi"], []⟩])).request.isSome = true :=
  ⟨rfl, rfl⟩

/-- C1 (amended): if a streaming callback is configured and the effective
generation options contain `n > 1`, the run attempt fails with the
configuration error and the callback is never invoked — but only after the
request has already been issued to the chat-completions endpoint (exactly one
dispatch occurs; the check happens on the returned stream, not before the
call). -/
theorem C1_streaming_multi_candidate (g : AsyncGenerator)
    (refresh : Credential → Credential) (prompt : String)
    (gk : Option (PyDict PyVal)) (chunks : List StreamChunk)
    (hcb : g.streaming_callback = true)
    (hn : 1 < popN (effectiveKwargs g gk)) :
    (singleAttempt g refresh prompt gk (BackendBehavior.streamResp chunks)).result =
      Except.error (RunError.configError
        "Cannot stream multiple responses, please set n=1.") ∧
    (singleAttempt g refresh prompt gk
      (BackendBehavior.streamResp chunks)).request.isSome = true ∧
    (singleAttempt g refresh prompt gk
      (BackendBehavior.streamResp chunks)).callbackContents = [] := by
  have hacc : pyAttrAccess g refresh "client" = Except.ok (g, false) := rfl
  refine ⟨?_, ?_, ?_⟩ <;>
    simp only [singleAttempt, hacc, if_pos hn] <;> rfl

/-- C1 witness: the amended theorem at a concrete streaming generator with
`n = 2`. -/
theorem C1_streaming_multi_candidate_witness :
    (singleAttempt streamN2Gen refreshSucceeds "p" Option.none
      (BackendBehavior.streamResp [⟨["hi"], []⟩])).result =
      Except.error (RunError.configError
        "Cannot stream multiple responses, please set n=1.") ∧
    (singleAttempt streamN2Gen refreshSucceeds "p" Option.none
      (BackendBehavior.streamResp [⟨["hi"], []⟩])).request.isSome = true ∧
    (singleAttempt streamN2Gen refreshSucceeds "p" Option.none
      (BackendBehavior.streamResp [⟨["hi"], []⟩])).callbackContents = [] :=
  C1_streaming_multi_candidate streamN2Gen refreshSucceeds "p" Option.none
    [⟨["hi"], []⟩] rfl (by decide)

/-- C2: for every reply text the JSON parser rejects, `wrapper` swallows the
parse error and substitutes an empty dict — but `normalize` then subscripts
that empty dict with `"models"` and raises `KeyError("models")` instead of
returning an empty mapping. The claim's tolerated-empty-mapping behavior holds
only inside `wrapper`; `normalize` as a whole raises. -/
theorem C2_malformed_json_raises_key_error (parse : String → Option PyVal)
    (reply : String) (meta : List (PyDict PyVal))
    (h : parse (wrapperTransform reply) = Option.none) :
    wrapper parse reply = PyVal.dict [] ∧
    normalize parse ⟨[reply], meta⟩ = Except.error (PyError.keyError "models") := by
  have hw : wrapper parse reply = PyVal.dict [] := by
    simp [wrapper, h]
  refine ⟨hw, ?_⟩
  simp [normalize, Bind.bind, Except.bind, hw, getItem, dictGet, List.head?]

/-- C2 witness: a concrete unparsable reply ("not json" under a parser that
rejects it) makes `normalize` raise `KeyError("models")`. -/
theorem C2_malformed_json_raises_key_error_witness :
    (fun _ : String => (Option.none : Option PyVal))
        (wrapperTransform "not json") = Option.none ∧
    wrapper (fun _ => Option.none) "not json" = PyVal.dict [] ∧
    normalize (fun _ => Option.none) ⟨["not json"], []⟩ =
      Except.error (PyError.keyError "models") :=
  ⟨rfl, C2_malformed_json_raises_key_error (fun _ => Option.none) "not json" [] rfl⟩

/-- C3: the credential-refresh hook is dead code on the run path. `run` reads
`self.client` (line 106), an instance attribute, so Python's `__getattr__`
fallback — the only place the Vertex credential is checked and refreshed —
never runs during `run`: no attempt ever refreshes the credential (first
conjunct), and even with an invalid credential and a refresh that would
succeed, the request is dispatched with the client's existing API key and the
call completes instead of refreshing first or failing (remaining conjuncts).
The hook itself would refresh (last conjunct shows `__getattr__`'s body doing
so when actually invoked). -/
theorem C3_run_never_refreshes :
    (∀ (g : AsyncGenerator) (refresh : Credential → Credential)
      (prompt : String) (gk : Option (PyDict PyVal)) (b : BackendBehavior),
      (singleAttempt g refresh prompt gk b).refreshed = false) ∧
    (singleAttempt vertexStaleGen refreshSucceeds "hi" Option.none
      (BackendBehavior.oneShot [⟨"ok", []⟩])).request =
      Option.some ⟨"google/gemini-1.5-pro", [ChatMessage.from_user "hi"], false,
        [], "initial-key"⟩ ∧
    (singleAttempt vertexStaleGen refreshSucceeds "hi" Option.none
      (BackendBehavior.oneShot [⟨"ok", []⟩])).result =
      Except.ok ⟨["ok"], [[]]⟩ ∧
    dunderGetattr vertexStaleGen refreshSucceeds =
      Except.ok (⟨"google/gemini-1.5-pro", false, Option.none, [], "fresh-token",
        Option.some ⟨true, "fresh-token"⟩⟩, true) := by
  refine ⟨fun g refresh prompt gk b => ?_, rfl, rfl, rfl⟩
  have hacc : pyAttrAccess g refresh "client" = Except.ok (g, false) := rfl
  cases b <;> simp only [singleAttempt, hacc] <;> first | rfl | (split <;> rfl)

/-- C4 (counterexample): with `max_tries=3`, three consecutive rate-limit
responses exhaust the retry budget — `run` propagates the rate-limit error
after exactly 3 attempts and never dispatches the fourth attempt that would
have succeeded, refuting the claim that it yields the successful result. -/
theorem C4_three_rate_limits_exhaust :
    (AsyncGenerator.run plainGen refreshSucceeds "p" Option.none
      rateRateRateOk).1.length = 3 ∧
    (AsyncGenerator.run plainGen refreshSucceeds "p" Option.none
      rateRateRateOk).2 = Except.error RunError.rateLimit :=
  ⟨rfl, rfl⟩

/-- C4 (amended): the backend call is retried on rate-limit responses only, up
to 3 attempts in total under the 60-time-unit ceiling: two consecutive
rate-limit responses followed by a success yield the successful result with
exactly 3 dispatch attempts recorded, while a failure other than rate-limiting
propagates immediately after a single attempt. -/
theorem C4_retry_policy (g : AsyncGenerator) (refresh : Credential → Credential)
    (prompt : String) (gk : Option (PyDict PyVal)) (choices : List Choice)
    (behaviors behaviors' : Nat → BackendBehavior)
    (h0 : behaviors 0 = BackendBehavior.rateLimit)
    (h1 : behaviors 1 = BackendBehavior.rateLimit)
    (h2 : behaviors 2 = BackendBehavior.oneShot choices)
    (hb : behaviors' 0 = BackendBehavior.apiError) :
    ((AsyncGenerator.run g refresh prompt gk behaviors).1.length = 3 ∧
     (AsyncGenerator.run g refresh prompt gk behaviors).2 =
       Except.ok ⟨choices.map Choice.content, choices.map Choice.meta⟩) ∧
    ((AsyncGenerator.run g refresh prompt gk behaviors').1.length = 1 ∧
     (AsyncGenerator.run g refresh prompt gk behaviors').2 =
       Except.error RunError.apiError) := by
  have hacc : pyAttrAccess g refresh "client" = Except.ok (g, false) := rfl
  constructor
  · have : AsyncGenerator.run g refresh prompt gk behaviors =
        ([singleAttempt g refresh prompt gk BackendBehavior.rateLimit,
          singleAttempt g refresh prompt gk BackendBehavior.rateLimit,
          singleAttempt g refresh prompt gk (BackendBehavior.oneShot choices)],
         Except.ok ⟨choices.map Choice.content, choices.map Choice.meta⟩) := by
      simp only [AsyncGenerator.run, backoffMaxTries, retryAux, h0, h1, h2,
        backoffMaxTime]
      rfl
    rw [this]
    exact ⟨rfl, rfl⟩
  · have : AsyncGenerator.run g refresh prompt gk behaviors' =
        ([singleAttempt g refresh prompt gk BackendBehavior.apiError],
         Except.error RunError.apiError) := by
      simp only [AsyncGenerator.run, backoffMaxTries, retryAux, hb]
      rfl
    rw [this]
    exact ⟨rfl, rfl⟩

/-- C4 witness: the amended theorem at a concrete backend that rate-limits
twice and then succeeds, and one that fails immediately. -/
theorem C4_retry_policy_witness :
    ((AsyncGenerator.run plainGen refreshSucceeds "p" Option.none
        rateRateOk).1.length = 3 ∧
     (AsyncGenerator.run plainGen refreshSucceeds "p" Option.none rateRateOk).2 =
       Except.ok ⟨[Choice.content ⟨"ok", []⟩], [Choice.meta ⟨"ok", []⟩]⟩) ∧
    ((AsyncGenerator.run plainGen refreshSucceeds "p" Option.none
        alwaysApiError).1.length = 1 ∧
     (AsyncGenerator.run plainGen refreshSucceeds "p" Option.none
        alwaysApiError).2 = Except.error RunError.apiError) :=
  C4_retry_policy plainGen refreshSucceeds "p" Option.none [⟨"ok", []⟩]
    rateRateOk alwaysApiError rfl rfl rfl rfl

/-- C5: when the callback is configured, `n` does not exceed 1 and every
delivered chunk carries choices, the callback receives exactly one built chunk
per arriving chunk, in arrival order, and the single assembled completion's
text is the ordered concatenation of those chunks' contents. -/
theorem C5_stream_assembly (g : AsyncGenerator)
    (refresh : Credential → Credential) (prompt : String)
    (gk : Option (PyDict PyVal)) (chunks : List StreamChunk)
    (hcb : g.streaming_callback = true)
    (hn : popN (effectiveKwargs g gk) ≤ 1)
    (hch : ∀ c ∈ chunks, c.choices ≠ []) :
    (singleAttempt g refresh prompt gk
      (BackendBehavior.streamResp chunks)).callbackContents =
      chunks.map buildChunkContent ∧
    (singleAttempt g refresh prompt gk (BackendBehavior.streamResp chunks)).result =
      Except.ok ⟨[connectChunks (chunks.map buildChunkContent)],
        [streamMeta chunks]⟩ := by
  have hacc : pyAttrAccess g refresh "client" = Except.ok (g, false) := rfl
  have hfilter : chunks.filter (fun c => !c.choices.isEmpty) = chunks :=
    List.filter_eq_self.mpr (fun c hc => by
      simpa [List.isEmpty_iff] using hch c hc)
  constructor <;>
    simp only [singleAttempt, hacc, if_neg (not_lt.mpr hn), hcb, if_true,
      hfilter]

/-- C5 witness: three concrete chunks with non-empty content are delivered to
the callback in order and assemble to their concatenation. -/
theorem C5_stream_assembly_witness :
    (singleAttempt streamN1Gen refreshSucceeds "p" Option.none
      (BackendBehavior.streamResp
        [⟨["Hel"], []⟩, ⟨["lo, "], []⟩, ⟨["world"], []⟩])).callbackContents =
      [⟨["Hel"], []⟩, ⟨["lo, "], []⟩,
        (⟨["world"], []⟩ : StreamChunk)].map buildChunkContent ∧
    (singleAttempt streamN1Gen refreshSucceeds "p" Option.none
      (BackendBehavior.streamResp
        [⟨["Hel"], []⟩, ⟨["lo, "], []⟩, ⟨["world"], []⟩])).result =
      Except.ok ⟨[connectChunks ([⟨["Hel"], []⟩, ⟨["lo, "], []⟩,
          (⟨["world"], []⟩ : StreamChunk)].map buildChunkContent)],
        [streamMeta [⟨["Hel"], []⟩, ⟨["lo, "], []⟩, ⟨["world"], []⟩]]⟩ :=
  C5_stream_assembly streamN1Gen refreshSucceeds "p" Option.none
    [⟨["Hel"], []⟩, ⟨["lo, "], []⟩, ⟨["world"], []⟩] rfl (by decide) (by decide)

/-- C6: the generation options used for the request are exactly
`{**defaults, **overrides}` — for any key, the override's value when the key is
present in the overrides, the default otherwise (keys of the defaults absent
from the overrides are preserved). The first conjunct ties this to the
dispatched request, the second states the key-by-key merge law. -/
theorem C6_effective_options (g : AsyncGenerator)
    (refresh : Credential → Credential) (prompt : String) (b : BackendBehavior)
    (o : PyDict PyVal) (k : String) (ho : (dictKeys o).Nodup) :
    ((singleAttempt g refresh prompt (Option.some o) b).request.map
      Request.kwargs = Option.some (dictMerge g.generation_kwargs o)) ∧
    (dictContains o k = true →
      dictGet (dictMerge g.generation_kwargs o) k = dictGet o k) ∧
    (dictContains o k = false →
      dictGet (dictMerge g.generation_kwargs o) k =
        dictGet g.generation_kwargs k) := by
  have hacc : pyAttrAccess g refresh "client" = Except.ok (g, false) := rfl
  refine ⟨?_, ?_, ?_⟩
  · cases b <;> simp only [singleAttempt, hacc] <;>
      first
        | rfl
        | (split <;> rfl)
  · intro hk
    obtain ⟨v, hv⟩ := Option.isSome_iff_exists.mp (by simpa [dictContains] using hk)
    rw [dictGet_merge g.generation_kwargs o k ho, hv]
  · intro hk
    have hnone : dictGet o k = Option.none :=
      Option.not_isSome_iff_eq_none.mp (by simpa [dictContains] using hk)
    rw [dictGet_merge g.generation_kwargs o k ho, hnone]

/-- C6 witness: the merge at concrete defaults and overrides — the override
wins on "n". -/
theorem C6_effective_options_witness :
    ((singleAttempt plainGen refreshSucceeds "p"
        (Option.some [("n", PyVal.int 3)])
        (BackendBehavior.oneShot [])).request.map Request.kwargs =
      Option.some (dictMerge plainGen.generation_kwargs [("n", PyVal.int 3)])) ∧
    (dictContains [("n", PyVal.int 3)] "n" = true →
      dictGet (dictMerge plainGen.generation_kwargs [("n", PyVal.int 3)]) "n" =
        dictGet [("n", PyVal.int 3)] "n") ∧
    (dictContains [("n", PyVal.int 3)] "n" = false →
      dictGet (dictMerge plainGen.generation_kwargs [("n", PyVal.int 3)]) "n" =
        dictGet plainGen.generation_kwargs "n") :=
  C6_effective_options plainGen refreshSucceeds "p" (BackendBehavior.oneShot [])
    [("n", PyVal.int 3)] "n" (by decide)

/-- C7: a one-shot backend response with `k` choices yields exactly `k` reply
texts and `k` metadata mappings, both in the backend's choice order. -/
theorem C7_one_shot_choice_order (g : AsyncGenerator)
    (refresh : Credential → Credential) (prompt : String)
    (gk : Option (PyDict PyVal)) (choices : List Choice) :
    (singleAttempt g refresh prompt gk (BackendBehavior.oneShot choices)).result =
      Except.ok ⟨choices.map Choice.content, choices.map Choice.meta⟩ ∧
    (choices.map Choice.content).length = choices.length ∧
    (choices.map Choice.meta).length = choices.length :=
  ⟨rfl, List.length_map choices Choice.content, List.length_map choices Choice.meta⟩

/-- C8: with a system prompt configured, the message list sent to the backend
is the system prompt as first message under the "assistant" role (not
"system"), followed by the user message; with none configured it is just the
user message. The last conjunct ties the list to the dispatched request. -/
theorem C8_message_construction (model : String) (cb : Bool)
    (gkw : PyDict PyVal) (api : String) (cred : Option Credential)
    (sp prompt : String) (refresh : Credential → Credential)
    (gk : Option (PyDict PyVal)) (b : BackendBehavior) :
    buildMessages ⟨model, cb, Option.some sp, gkw, api, cred⟩ prompt =
      [ChatMessage.from_assistant sp, ChatMessage.from_user prompt] ∧
    (ChatMessage.from_assistant sp).role = "assistant" ∧
    "assistant" ≠ "system" ∧
    (ChatMessage.from_user prompt).role = "user" ∧
    buildMessages ⟨model, cb, Option.none, gkw, api, cred⟩ prompt =
      [ChatMessage.from_user prompt] ∧
    (singleAttempt ⟨model, cb, Option.some sp, gkw, api, cred⟩ refresh prompt
      gk b).request.map Request.messages =
      Option.some [ChatMessage.from_assistant sp, ChatMessage.from_user prompt] := by
  refine ⟨rfl, rfl, by decide, rfl, rfl, ?_⟩
  have hacc : pyAttrAccess ⟨model, cb, Option.some sp, gkw, api, cred⟩ refresh
      "client" = Except.ok (⟨model, cb, Option.some sp, gkw, api, cred⟩, false) :=
    rfl
  cases b <;> simp only [singleAttempt, hacc] <;>
    first
      | rfl
      | (split <;> rfl)

/-- C9: `get_generator` builds the generator's kwargs as
`{**generation_kwargs, **self._model_kwargs}` — on a key present in both, the
provider's stored model kwargs win (first conjunct) — which is the reverse of
the per-call merge inside `run`, where on a shared key the caller's per-call
options win over the generator's stored kwargs (second conjunct). -/
theorem C9_get_generator_precedence (p : OpenAILLMProvider)
    (sp : Option String) (gk o : PyDict PyVal) (ambient : Option Credential)
    (g g2 : AsyncGenerator) (k : String)
    (hm : (dictKeys p.model_kwargs).Nodup)
    (hg : p.get_generator sp (Option.some gk) ambient = Except.ok g)
    (hk : dictContains p.model_kwargs k = true)
    (ho : (dictKeys o).Nodup)
    (hko : dictContains o k = true) :
    dictGet g.generation_kwargs k = dictGet p.model_kwargs k ∧
    dictGet (effectiveKwargs g2 (Option.some o)) k = dictGet o k := by
  constructor
  · simp only [OpenAILLMProvider.get_generator, Except.ok.injEq] at hg
    subst hg
    obtain ⟨v, hv⟩ := Option.isSome_iff_exists.mp (by simpa [dictContains] using hk)
    show dictGet (dictMerge gk p.model_kwargs) k = dictGet p.model_kwargs k
    rw [dictGet_merge gk p.model_kwargs k hm, hv]
  · obtain ⟨v, hv⟩ := Option.isSome_iff_exists.mp (by simpa [dictContains] using hko)
    show dictGet (dictMerge g2.generation_kwargs o) k = dictGet o k
    rw [dictGet_merge g2.generation_kwargs o k ho, hv]

/-- C9 witness: at a concrete provider whose model kwargs and the caller's
kwargs both hold "n", the built generator keeps the provider's value, while
`run`'s merge would keep the caller's. -/
theorem C9_get_generator_precedence_witness :
    dictGet (initGenerator "key" "gpt-4o-mini" false Option.none
      (dictMerge [("n", PyVal.int 9)] providerFixture.model_kwargs)
      Option.none).generation_kwargs "n" =
      dictGet providerFixture.model_kwargs "n" ∧
    dictGet (effectiveKwargs plainGen
      (Option.some [("n", PyVal.int 9)])) "n" =
      dictGet [("n", PyVal.int 9)] "n" :=
  C9_get_generator_precedence providerFixture Option.none [("n", PyVal.int 9)]
    [("n", PyVal.int 9)] Option.none _ plainGen "n" (by decide) rfl (by decide)
    (by decide) (by decide)

/-- C10: `a_measure` computes the score as the cardinality of
`set(retrieval_context) ∩ set(expected_units)` divided by the number of
expected units; when the expected SQL yields zero expected context units it
raises a division-by-zero error instead of returning a score; and for a
non-empty expected set the stored success flag — what `is_successful` then
returns — is true, since the threshold is fixed at 0 by the constructor and
the score is non-negative. -/
theorem C10_contextual_recall (retrieval expected : List String)
    (hne : expected ≠ []) :
    ContextualRecallMetric.a_measure initMetric retrieval [] =
      Except.error PyError.zeroDivision ∧
    ContextualRecallMetric.a_measure initMetric retrieval expected =
      Except.ok ⟨((retrieval.toFinset ∩ expected.toFinset).card : Rat) /
        (expected.length : Rat), true⟩ := by
  constructor
  · rfl
  · unfold ContextualRecallMetric.a_measure
    rw [if_neg (by simpa [List.length_eq_zero] using hne)]
    have hpos : (0 : Rat) ≤
        ((retrieval.toFinset ∩ expected.toFinset).card : Rat) /
          (expected.length : Rat) :=
      div_nonneg (by positivity) (by positivity)
    have : decide ((initMetric.threshold : Rat) ≤
        ((retrieval.toFinset ∩ expected.toFinset).card : Rat) /
          (expected.length : Rat)) = true :=
      decide_eq_true (by simpa [initMetric] using hpos)
    show Except.ok _ = _
    rw [this]

/-- C10 witness: retrieval `["a", "b"]` against expected `["b", "c"]` gives
score `|{"b"}| / 2` with success true, and an empty expected set raises. -/
theorem C10_contextual_recall_witness :
    ContextualRecallMetric.a_measure initMetric ["a", "b"] [] =
      Except.error PyError.zeroDivision ∧
    ContextualRecallMetric.a_measure initMetric ["a", "b"] ["b", "c"] =
      Except.ok ⟨((["a", "b"].toFinset ∩ ["b", "c"].toFinset).card : Rat) /
        ((["b", "c"] : List String).length : Rat), true⟩ :=
  C10_contextual_recall ["a", "b"] ["b", "c"] (by decide)

end Wren
